import Mathlib

/-!
Verification of the journal-keeping web application ("my-journal").

The repository ships, under `src/`, a minimal in-memory server variant
(`src/src/server.ts`, first unit: `GET /api/users` and `POST /api/users` only),
the test suite of the full TypeORM-backed server (`src/__tests__/server.test.ts`),
an ORM configuration file, and frontend test files.  The full server itself
(Basic-Auth gate, Entry resource manager, time codec, trimming and uniqueness
logic) is not under `src/`: only its tests are.  Per the specification, the
parts of the full server that are absent are modelled from the spec (and pinned
by the behaviour the repository's own test suite demands); those definitions
carry a `Modelled from the spec:` doc comment.  The minimal variant present in
`src/src/server.ts` is embedded directly from its source.
-/

set_option maxRecDepth 10000

namespace MyJournal

/-! ## Time Codec

Modelled from the spec: the Time Codec (spec section 4.1) is part of the full
server, which is absent from `src/` (only `src/__tests__/server.test.ts`
exercises it).  `toUTC` parses a local time string `YYYY-MM-DD HH:MM[:SS]` as
naive wall-clock fields, parses the offset `[+-]HH:MM` as signed minutes from
UTC, and returns the absolute instant `UTC = local - offset` (seconds since
0000-01-01 00:00:00, proleptic Gregorian, as an integer).  `toLocal` is the
inverse `local = UTC + offset`, formatted back to `YYYY-MM-DD HH:MM`.
-/

/-- Decidable digit test on a character (codepoints 48..57). -/
def isDigitP (c : Char) : Prop := 48 ≤ c.toNat ∧ c.toNat ≤ 57

instance (c : Char) : Decidable (isDigitP c) := by unfold isDigitP; infer_instance

/-- Numeric value of a digit character. -/
def d2n (c : Char) : Nat := c.toNat - 48

/-- Digit character of a numeric value below 10. -/
def n2d (n : Nat) : Char := Char.ofNat (48 + n)

/-- Is the (proleptic Gregorian) year a leap year? -/
def isLeapYear (y : Nat) : Bool := (y % 4 == 0 && y % 100 != 0) || y % 400 == 0

/-- Month lengths, January first. -/
def monthLengths (leap : Bool) : List Nat :=
  [31, if leap then 29 else 28, 31, 30, 31, 30, 31, 31, 30, 31, 30, 31]

/-- Length of month `m` (1-based) in days. -/
def monthLen (leap : Bool) (m : Nat) : Nat := (monthLengths leap).getD (m - 1) 0

/-- Days in the months strictly before month `m` (1-based). -/
def monthsBefore (leap : Bool) (m : Nat) : Nat := ((monthLengths leap).take (m - 1)).sum

/-- Number of days in year `y`. -/
def yearLen (y : Nat) : Nat := if isLeapYear y then 366 else 365

/-- Days in the years strictly before year `y` (counting from year 0):
365 per year plus one per leap year among `0, …, y-1`. -/
def daysBeforeYear (y : Nat) : Nat :=
  365 * y + ((y + 3) / 4 - (y + 99) / 100 + (y + 399) / 400)

/-- Day number (since 0000-01-01) of the civil date `y-m-d` (`m`, `d` 1-based). -/
def civilDays (y m d : Nat) : Nat := daysBeforeYear y + monthsBefore (isLeapYear y) m + (d - 1)

/-- Seconds since 0000-01-01 00:00:00 of the wall-clock fields. -/
def civilSecs (y mo d h mi s : Nat) : Nat :=
  civilDays y mo d * 86400 + (h * 3600 + mi * 60 + s)

/-- Fuelled year search: starting at year `b`, peel off whole years from the
day count `n`; returns the year reached and the remaining day-of-year. -/
def yearOfAux : Nat → Nat → Nat → Nat × Nat
  | 0, b, n => (b, n)
  | f + 1, b, n => if n < yearLen b then (b, n) else yearOfAux f (b + 1) (n - yearLen b)

/-- Year and day-of-year of a day number counted from 0000-01-01. -/
def daysToYearDoy (n : Nat) : Nat × Nat := yearOfAux (n + 1) 0 n

/-- Split a remainder against a list of block lengths: returns the index of the
block the remainder falls into and the offset inside that block. -/
def splitBlocks : List Nat → Nat → Nat × Nat
  | [], n => (0, n)
  | l :: ls, n =>
    if n < l then (0, n)
    else
      let p := splitBlocks ls (n - l)
      (p.1 + 1, p.2)

/-- Parsed wall-clock fields of a local time string. -/
structure LocalFields where
  year : Nat
  month : Nat
  day : Nat
  hour : Nat
  minute : Nat
  second : Nat
  hasSeconds : Bool
deriving DecidableEq, Repr

/-- Seconds since 0000-01-01 00:00:00 of parsed wall-clock fields. -/
def localSecs (f : LocalFields) : Nat :=
  civilSecs f.year f.month f.day f.hour f.minute f.second

/-- Parse `YYYY-MM-DD HH:MM` or `YYYY-MM-DD HH:MM:SS` from a character list,
validating digit positions, separators and field ranges. -/
def parseLocalChars : List Char → Option LocalFields
  | [y1, y2, y3, y4, '-', m1, m2, '-', e1, e2, ' ', h1, h2, ':', n1, n2] =>
    let y := 1000 * d2n y1 + 100 * d2n y2 + 10 * d2n y3 + d2n y4
    let mo := 10 * d2n m1 + d2n m2
    let d := 10 * d2n e1 + d2n e2
    let h := 10 * d2n h1 + d2n h2
    let mi := 10 * d2n n1 + d2n n2
    if isDigitP y1 ∧ isDigitP y2 ∧ isDigitP y3 ∧ isDigitP y4 ∧
        isDigitP m1 ∧ isDigitP m2 ∧ isDigitP e1 ∧ isDigitP e2 ∧
        isDigitP h1 ∧ isDigitP h2 ∧ isDigitP n1 ∧ isDigitP n2 ∧
        1 ≤ mo ∧ mo ≤ 12 ∧ 1 ≤ d ∧ d ≤ monthLen (isLeapYear y) mo ∧
        h ≤ 23 ∧ mi ≤ 59 then
      some ⟨y, mo, d, h, mi, 0, false⟩
    else none
  | [y1, y2, y3, y4, '-', m1, m2, '-', e1, e2, ' ', h1, h2, ':', n1, n2, ':', s1, s2] =>
    let y := 1000 * d2n y1 + 100 * d2n y2 + 10 * d2n y3 + d2n y4
    let mo := 10 * d2n m1 + d2n m2
    let d := 10 * d2n e1 + d2n e2
    let h := 10 * d2n h1 + d2n h2
    let mi := 10 * d2n n1 + d2n n2
    let s := 10 * d2n s1 + d2n s2
    if isDigitP y1 ∧ isDigitP y2 ∧ isDigitP y3 ∧ isDigitP y4 ∧
        isDigitP m1 ∧ isDigitP m2 ∧ isDigitP e1 ∧ isDigitP e2 ∧
        isDigitP h1 ∧ isDigitP h2 ∧ isDigitP n1 ∧ isDigitP n2 ∧
        isDigitP s1 ∧ isDigitP s2 ∧
        1 ≤ mo ∧ mo ≤ 12 ∧ 1 ≤ d ∧ d ≤ monthLen (isLeapYear y) mo ∧
        h ≤ 23 ∧ mi ≤ 59 ∧ s ≤ 59 then
      some ⟨y, mo, d, h, mi, s, true⟩
    else none
  | _ => none

/-- Parse an offset `[+-]HH:MM` (the spec's regex) into signed minutes from UTC. -/
def parseOffsetChars : List Char → Option Int
  | [sg, h1, h2, ':', m1, m2] =>
    if (sg = '+' ∨ sg = '-') ∧ isDigitP h1 ∧ isDigitP h2 ∧ isDigitP m1 ∧ isDigitP m2 then
      let v : Nat := (10 * d2n h1 + d2n h2) * 60 + (10 * d2n m1 + d2n m2)
      some (if sg = '+' then (v : Int) else -(v : Int))
    else none
  | _ => none

/-- Two-digit zero-padded decimal rendering. -/
def pad2 (n : Nat) : List Char := [n2d (n / 10), n2d (n % 10)]

/-- Four-digit zero-padded decimal rendering. -/
def pad4 (n : Nat) : List Char :=
  [n2d (n / 1000), n2d (n / 100 % 10), n2d (n / 10 % 10), n2d (n % 10)]

/-- Format an instant (seconds since 0000-01-01) as `YYYY-MM-DD HH:MM`. -/
def formatLocalChars (n : Nat) : List Char :=
  let t := n % 86400
  let yd := daysToYearDoy (n / 86400)
  let md := splitBlocks (monthLengths (isLeapYear yd.1)) yd.2
  pad4 yd.1 ++ '-' :: pad2 (md.1 + 1) ++ '-' :: pad2 (md.2 + 1) ++
    ' ' :: pad2 (t / 3600) ++ ':' :: pad2 (t % 3600 / 60)

/-- Format an instant as the canonical ISO form `YYYY-MM-DDTHH:MM:SS.000Z`
used for the stored `timestampInUTC`. -/
def formatISOChars (n : Nat) : List Char :=
  let t := n % 86400
  let yd := daysToYearDoy (n / 86400)
  let md := splitBlocks (monthLengths (isLeapYear yd.1)) yd.2
  pad4 yd.1 ++ '-' :: pad2 (md.1 + 1) ++ '-' :: pad2 (md.2 + 1) ++
    'T' :: pad2 (t / 3600) ++ ':' :: pad2 (t % 3600 / 60) ++ ':' :: pad2 (t % 60) ++
    ['.', '0', '0', '0', 'Z']

/-- `toUTC(localTime, offset)`: the absolute instant `UTC = local - offset`,
in seconds since 0000-01-01 00:00:00. -/
def toUTC (localTime offset : String) : Option Int :=
  (parseLocalChars localTime.data).bind fun f =>
    (parseOffsetChars offset.data).map fun off => (localSecs f : Int) - 60 * off

/-- `toLocal(instant, offset)`: `local = UTC + offset`, formatted back to
`YYYY-MM-DD HH:MM`. -/
def toLocal (instant : Int) (offset : String) : Option String :=
  (parseOffsetChars offset.data).map fun off =>
    String.mk (formatLocalChars (instant + 60 * off).toNat)

/-- ISO rendering of an instant (nonnegative instants only are ever produced
by `toUTC` on dates at year 1 or later). -/
def formatISO (instant : Int) : String := String.mk (formatISOChars instant.toNat)

/-! ### Calendar lemmas: formatting is a left inverse of parsing -/

theorem isLeapYear_iff (y : Nat) :
    isLeapYear y = true ↔ (y % 4 = 0 ∧ y % 100 ≠ 0) ∨ y % 400 = 0 := by
  simp [isLeapYear, Bool.or_eq_true, Bool.and_eq_true, beq_iff_eq, bne_iff_ne]

theorem daysBeforeYear_succ (y : Nat) :
    daysBeforeYear (y + 1) = daysBeforeYear y + yearLen y := by
  unfold daysBeforeYear yearLen
  by_cases h : isLeapYear y = true
  · rw [if_pos h]
    rcases (isLeapYear_iff y).mp h with ⟨h4, h100⟩ | h400
    · omega
    · omega
  · rw [if_neg h]
    have h2 : ¬ ((y % 4 = 0 ∧ y % 100 ≠ 0) ∨ y % 400 = 0) := fun hc => h ((isLeapYear_iff y).mpr hc)
    push_neg at h2
    omega

theorem daysBeforeYear_le_succ (y : Nat) : daysBeforeYear y ≤ daysBeforeYear (y + 1) := by
  rw [daysBeforeYear_succ]; omega

theorem daysBeforeYear_mono {a c : Nat} (h : a ≤ c) : daysBeforeYear a ≤ daysBeforeYear c := by
  induction c with
  | zero => simp_all
  | succ n ih =>
    rcases Nat.lt_or_ge a (n + 1) with hlt | hge
    · exact le_trans (ih (by omega)) (daysBeforeYear_le_succ n)
    · have : a = n + 1 := by omega
      subst this; exact le_rfl

theorem daysBeforeYear_ge (y : Nat) : y ≤ daysBeforeYear y := by
  unfold daysBeforeYear; omega

theorem daysBeforeYear_zero : daysBeforeYear 0 = 0 := by
  unfold daysBeforeYear; omega

theorem yearOfAux_eval : ∀ (fuel b y k : Nat), b ≤ y → y - b ≤ fuel → k < yearLen y →
    yearOfAux fuel b (daysBeforeYear y - daysBeforeYear b + k) = (y, k) := by
  intro fuel
  induction fuel with
  | zero =>
    intro b y k hby hf hk
    have hyb : y = b := by omega
    subst hyb
    simp [yearOfAux]
  | succ f ih =>
    intro b y k hby hf hk
    by_cases hbe : b = y
    · subst hbe
      simp only [Nat.sub_self, Nat.zero_add, yearOfAux]
      rw [if_pos hk]
    · have hblt : b < y := by omega
      have hstep : daysBeforeYear b + yearLen b ≤ daysBeforeYear y := by
        have := daysBeforeYear_mono (show b + 1 ≤ y by omega)
        rw [daysBeforeYear_succ] at this
        omega
      have hmono : daysBeforeYear b ≤ daysBeforeYear y := daysBeforeYear_mono (by omega)
      have hnotlt : ¬ (daysBeforeYear y - daysBeforeYear b + k < yearLen b) := by omega
      simp only [yearOfAux]
      rw [if_neg hnotlt]
      have harg : daysBeforeYear y - daysBeforeYear b + k - yearLen b =
          daysBeforeYear y - daysBeforeYear (b + 1) + k := by
        rw [daysBeforeYear_succ]
        omega
      rw [harg]
      exact ih (b + 1) y k (by omega) (by omega) hk

theorem daysToYearDoy_eval (y k : Nat) (hk : k < yearLen y) :
    daysToYearDoy (daysBeforeYear y + k) = (y, k) := by
  unfold daysToYearDoy
  have h0 := yearOfAux_eval (daysBeforeYear y + k + 1) 0 y k (Nat.zero_le y)
    (by have := daysBeforeYear_ge y; omega) hk
  rwa [daysBeforeYear_zero, Nat.sub_zero] at h0

theorem splitBlocks_eval : ∀ (ls : List Nat) (i r : Nat) (hi : i < ls.length),
    r < ls.get ⟨i, hi⟩ → splitBlocks ls ((ls.take i).sum + r) = (i, r) := by
  intro ls
  induction ls with
  | nil => intro i r hi; simp at hi
  | cons l ls ih =>
    intro i r hi hr
    cases i with
    | zero =>
      simp only [List.take_zero, List.sum_nil, Nat.zero_add]
      unfold splitBlocks
      rw [if_pos (by simpa using hr)]
    | succ j =>
      have hj : j < ls.length := by simpa using hi
      have hrj : r < ls.get ⟨j, hj⟩ := by simpa using hr
      simp only [List.take_succ_cons, List.sum_cons]
      unfold splitBlocks
      rw [if_neg (by omega)]
      have harg : l + (ls.take j).sum + r - l = (ls.take j).sum + r := by omega
      rw [harg, ih j r hj hrj]

theorem take_get_le : ∀ (ls : List Nat) (i : Nat) (hi : i < ls.length),
    (ls.take i).sum + ls.get ⟨i, hi⟩ ≤ ls.sum := by
  intro ls
  induction ls with
  | nil => intro i hi; simp at hi
  | cons l ls ih =>
    intro i hi
    cases i with
    | zero => simp
    | succ j =>
      have hj : j < ls.length := by simpa using hi
      have := ih j hj
      simp only [List.take_succ_cons, List.sum_cons, List.get_cons_succ]
      omega

theorem monthLengths_length (leap : Bool) : (monthLengths leap).length = 12 := rfl

theorem monthLengths_sum (leap : Bool) : (monthLengths leap).sum = if leap then 366 else 365 := by
  cases leap <;> rfl

theorem n2d_d2n {c : Char} (hc : isDigitP c) : n2d (d2n c) = c := by
  unfold n2d d2n
  obtain ⟨h1, h2⟩ := hc
  have : 48 + (c.toNat - 48) = c.toNat := by omega
  rw [this, Char.ofNat_toNat]

theorem d2n_le {c : Char} (hc : isDigitP c) : d2n c ≤ 9 := by
  obtain ⟨h1, h2⟩ := hc; unfold d2n; omega

theorem pad2_digits {a b : Char} (ha : isDigitP a) (hb : isDigitP b) :
    pad2 (10 * d2n a + d2n b) = [a, b] := by
  have ha9 := d2n_le ha
  have hb9 := d2n_le hb
  unfold pad2
  have h1 : (10 * d2n a + d2n b) / 10 = d2n a := by omega
  have h2 : (10 * d2n a + d2n b) % 10 = d2n b := by omega
  rw [h1, h2, n2d_d2n ha, n2d_d2n hb]

theorem pad4_digits {a b c e : Char} (ha : isDigitP a) (hb : isDigitP b)
    (hc : isDigitP c) (he : isDigitP e) :
    pad4 (1000 * d2n a + 100 * d2n b + 10 * d2n c + d2n e) = [a, b, c, e] := by
  have ha9 := d2n_le ha
  have hb9 := d2n_le hb
  have hc9 := d2n_le hc
  have he9 := d2n_le he
  unfold pad4
  have h1 : (1000 * d2n a + 100 * d2n b + 10 * d2n c + d2n e) / 1000 = d2n a := by omega
  have h2 : (1000 * d2n a + 100 * d2n b + 10 * d2n c + d2n e) / 100 % 10 = d2n b := by omega
  have h3 : (1000 * d2n a + 100 * d2n b + 10 * d2n c + d2n e) / 10 % 10 = d2n c := by omega
  have h4 : (1000 * d2n a + 100 * d2n b + 10 * d2n c + d2n e) % 10 = d2n e := by omega
  rw [h1, h2, h3, h4, n2d_d2n ha, n2d_d2n hb, n2d_d2n hc, n2d_d2n he]

/-- Formatting the instant of valid wall-clock fields prints those fields back
(seconds dropped, as the local display format has no seconds). -/
theorem formatLocalChars_eval (y mo d h mi s : Nat)
    (hmo1 : 1 ≤ mo) (hmo2 : mo ≤ 12) (hd1 : 1 ≤ d)
    (hd2 : d ≤ monthLen (isLeapYear y) mo) (hh : h ≤ 23) (hmi : mi ≤ 59) (hs : s ≤ 59) :
    formatLocalChars (civilSecs y mo d h mi s) =
      pad4 y ++ '-' :: pad2 mo ++ '-' :: pad2 d ++ ' ' :: pad2 h ++ ':' :: pad2 mi := by
  have hidx : mo - 1 < (monthLengths (isLeapYear y)).length := by
    rw [monthLengths_length]; omega
  have hget : (monthLengths (isLeapYear y)).get ⟨mo - 1, hidx⟩ = monthLen (isLeapYear y) mo := by
    unfold monthLen
    rw [List.getD_eq_getElem _ _ hidx, List.get_eq_getElem]
  have hdlt : d - 1 < (monthLengths (isLeapYear y)).get ⟨mo - 1, hidx⟩ := by
    rw [hget]; omega
  have hdoy : monthsBefore (isLeapYear y) mo + (d - 1) < yearLen y := by
    have h1 := take_get_le (monthLengths (isLeapYear y)) (mo - 1) hidx
    have h2 : (monthLengths (isLeapYear y)).sum = yearLen y := by
      rw [monthLengths_sum]; unfold yearLen; rfl
    unfold monthsBefore
    omega
  have hT : h * 3600 + mi * 60 + s < 86400 := by omega
  unfold formatLocalChars civilSecs civilDays
  have e1 : ((daysBeforeYear y + monthsBefore (isLeapYear y) mo + (d - 1)) * 86400 +
      (h * 3600 + mi * 60 + s)) % 86400 = h * 3600 + mi * 60 + s := by omega
  have e2 : ((daysBeforeYear y + monthsBefore (isLeapYear y) mo + (d - 1)) * 86400 +
      (h * 3600 + mi * 60 + s)) / 86400 =
      daysBeforeYear y + (monthsBefore (isLeapYear y) mo + (d - 1)) := by omega
  have e3 : splitBlocks (monthLengths (isLeapYear y))
      (monthsBefore (isLeapYear y) mo + (d - 1)) = (mo - 1, d - 1) := by
    have := splitBlocks_eval (monthLengths (isLeapYear y)) (mo - 1) (d - 1) hidx hdlt
    unfold monthsBefore
    exact this
  have e4 : mo - 1 + 1 = mo := by omega
  have e5 : d - 1 + 1 = d := by omega
  have e6 : (h * 3600 + mi * 60 + s) / 3600 = h := by omega
  have e7 : (h * 3600 + mi * 60 + s) % 3600 / 60 = mi := by omega
  dsimp only
  rw [e1, e2, daysToYearDoy_eval y (monthsBefore (isLeapYear y) mo + (d - 1)) hdoy]
  dsimp only
  rw [e3]
  dsimp only
  rw [e4, e5, e6, e7]

theorem toLocal_shift (z : List Char) (off : Int) (hpo : parseOffsetChars z = some off)
    (n : Nat) :
    toLocal ((n : Int) - 60 * off) (String.mk z) = some (String.mk (formatLocalChars n)) := by
  unfold toLocal
  have hdz : (String.mk z).data = z := rfl
  rw [hdz, hpo]
  have harg : ((n : Int) - 60 * off + 60 * off).toNat = n := by omega
  show some (String.mk (formatLocalChars ((n : Int) - 60 * off + 60 * off).toNat)) = _
  rw [harg]

/-- C2: Time Codec round-trip law.  For every valid local-time string `L`
(`YYYY-MM-DD HH:MM[:SS]`) and valid offset string `Z` (`[+-]HH:MM`) — validity
being exactly that `toUTC L Z` succeeds — converting back via
`toLocal (toUTC L Z) Z` reproduces `L` truncated to its minute part
(its first 16 characters); in particular it reproduces `L` itself whenever `L`
lacked the optional seconds component. -/
theorem timeCodec_roundTrip (L Z : String) (i : Int) (h : toUTC L Z = some i) :
    toLocal i Z = some (String.mk (L.data.take 16)) ∧
      (L.data.length = 16 → toLocal i Z = some L) := by
  obtain ⟨l⟩ := L
  obtain ⟨z⟩ := Z
  unfold toUTC at h
  have hdl : (String.mk l).data = l := rfl
  have hdz : (String.mk z).data = z := rfl
  rw [hdl, hdz] at h
  cases hpf : parseLocalChars l with
  | none => rw [hpf] at h; simp at h
  | some f =>
    cases hpo : parseOffsetChars z with
    | none => rw [hpf, hpo] at h; simp at h
    | some off =>
      rw [hpf, hpo] at h
      have h2 : (localSecs f : Int) - 60 * off = i := Option.some.inj h
      subst h2
      unfold parseLocalChars at hpf
      split at hpf
      · -- 16-character form, no seconds
        rename_i y1 y2 y3 y4 ma mb da db ha hb na nb
        dsimp only at hpf
        split at hpf
        · rename_i hP
          have hf := Option.some.inj hpf
          subst hf
          obtain ⟨p1, p2, p3, p4, p5, p6, p7, p8, p9, p10, p11, p12,
            hmo1, hmo2, hda1, hda2, hho, hmin⟩ := hP
          rw [toLocal_shift z off hpo]
          have hkey : String.mk (formatLocalChars (localSecs
              ⟨1000 * d2n y1 + 100 * d2n y2 + 10 * d2n y3 + d2n y4,
               10 * d2n ma + d2n mb, 10 * d2n da + d2n db,
               10 * d2n ha + d2n hb, 10 * d2n na + d2n nb, 0, false⟩)) =
              String.mk [y1, y2, y3, y4, '-', ma, mb, '-', da, db, ' ',
                ha, hb, ':', na, nb] := by
            have hls : localSecs
                ⟨1000 * d2n y1 + 100 * d2n y2 + 10 * d2n y3 + d2n y4,
                 10 * d2n ma + d2n mb, 10 * d2n da + d2n db,
                 10 * d2n ha + d2n hb, 10 * d2n na + d2n nb, 0, false⟩ =
                civilSecs (1000 * d2n y1 + 100 * d2n y2 + 10 * d2n y3 + d2n y4)
                  (10 * d2n ma + d2n mb) (10 * d2n da + d2n db)
                  (10 * d2n ha + d2n hb) (10 * d2n na + d2n nb) 0 := rfl
            rw [hls, formatLocalChars_eval _ _ _ _ _ _ hmo1 hmo2 hda1 hda2 hho hmin
              (by omega), pad4_digits p1 p2 p3 p4, pad2_digits p5 p6,
              pad2_digits p7 p8, pad2_digits p9 p10, pad2_digits p11 p12]
            rfl
          exact ⟨by rw [hkey]; rfl, fun _ => by rw [hkey]⟩
        · exact absurd hpf (by simp)
      · -- 19-character form, with seconds
        rename_i y1 y2 y3 y4 ma mb da db ha hb na nb sa sb
        dsimp only at hpf
        split at hpf
        · rename_i hP
          have hf := Option.some.inj hpf
          subst hf
          obtain ⟨p1, p2, p3, p4, p5, p6, p7, p8, p9, p10, p11, p12, p13, p14,
            hmo1, hmo2, hda1, hda2, hho, hmin, hsec⟩ := hP
          rw [toLocal_shift z off hpo]
          have hkey : String.mk (formatLocalChars (localSecs
              ⟨1000 * d2n y1 + 100 * d2n y2 + 10 * d2n y3 + d2n y4,
               10 * d2n ma + d2n mb, 10 * d2n da + d2n db,
               10 * d2n ha + d2n hb, 10 * d2n na + d2n nb,
               10 * d2n sa + d2n sb, true⟩)) =
              String.mk [y1, y2, y3, y4, '-', ma, mb, '-', da, db, ' ',
                ha, hb, ':', na, nb] := by
            have hls : localSecs
                ⟨1000 * d2n y1 + 100 * d2n y2 + 10 * d2n y3 + d2n y4,
                 10 * d2n ma + d2n mb, 10 * d2n da + d2n db,
                 10 * d2n ha + d2n hb, 10 * d2n na + d2n nb,
                 10 * d2n sa + d2n sb, true⟩ =
                civilSecs (1000 * d2n y1 + 100 * d2n y2 + 10 * d2n y3 + d2n y4)
                  (10 * d2n ma + d2n mb) (10 * d2n da + d2n db)
                  (10 * d2n ha + d2n hb) (10 * d2n na + d2n nb)
                  (10 * d2n sa + d2n sb) := rfl
            rw [hls, formatLocalChars_eval _ _ _ _ _ _ hmo1 hmo2 hda1 hda2 hho hmin
              hsec, pad4_digits p1 p2 p3 p4, pad2_digits p5 p6,
              pad2_digits p7 p8, pad2_digits p9 p10, pad2_digits p11 p12]
            rfl
          refine ⟨by rw [hkey]; rfl, fun hlen => ?_⟩
          simp at hlen
        · exact absurd hpf (by simp)
      · exact absurd hpf (by simp)

/-! ## Minimal in-memory server variant, embedded from `src/src/server.ts` -/

/-- A stored User record of the minimal variant (`IUser` in `src/src/server.ts`). -/
structure IUser where
  id : Int
  username : String
  name : String
  email : String
  password : String
deriving DecidableEq, Repr

/-- The JSON body of a `POST /api/users` request; a field is `none` exactly when
the body object does not have that property (`hasOwnProperty` in the source). -/
structure SrcUserPayload where
  username : Option String
  name : Option String
  email : Option String
  password : Option String
deriving DecidableEq, Repr

/-- A JSON response body of the minimal variant's user endpoints. -/
inductive SrcBody
  | err (msg : String)
  | publicUser (id : Int) (username : String)
deriving DecidableEq, Repr

/-- An HTTP response of the minimal variant: status code and JSON body. -/
structure SrcResp where
  status : Nat
  body : SrcBody
deriving DecidableEq, Repr

/-- `router.get("/api/users")` of `src/src/server.ts` (lines 44-55): an object
keyed by each stored id's string form, holding the `{id, username}` projection;
embedded as an association list in store order. -/
def getUsersSrc (users : List IUser) : List (String × (Int × String)) :=
  users.map fun u => (toString u.id, (u.id, u.username))

/-- `router.post("/api/users")` of `src/src/server.ts` (lines 57-95): exact
content-type equality check, field-presence loop in the order
username, name, email, password, then `nextId = Math.max(...ids) + 1` and
insertion.  `Math.max()` of an empty id list is `-Infinity` in JavaScript; the
shipped store is seeded non-empty, and the embedding returns `none` in that
degenerate case (`List.max?` of the empty list). -/
def postUsersSrc (contentType : Option String) (body : SrcUserPayload)
    (users : List IUser) : Option (SrcResp × List IUser) :=
  if contentType ≠ some "application/json" then
    some (⟨400,
      .err "Your request did not include a 'Content-Type: application/json' header"⟩,
      users)
  else
    match body.username with
    | none => some (⟨400, .err "Your request body did not specify a 'username'"⟩, users)
    | some username =>
      match body.name with
      | none => some (⟨400, .err "Your request body did not specify a 'name'"⟩, users)
      | some name =>
        match body.email with
        | none => some (⟨400, .err "Your request body did not specify a 'email'"⟩, users)
        | some email =>
          match body.password with
          | none =>
            some (⟨400, .err "Your request body did not specify a 'password'"⟩, users)
          | some password =>
            ((users.map (fun u => u.id)).max?).map fun m =>
              let newUser : IUser := ⟨m + 1, username, name, email, password⟩
              (⟨201, .publicUser newUser.id newUser.username⟩, users ++ [newUser])

/-! ## Full server model

The TypeORM-backed server (imported by `src/__tests__/server.test.ts` as
`../src/server`, exporting `app` and `connectionPromise`, with entities in
`../src/entities`) is code of this repository that is not under `src/` — only
its tests are.  The definitions below model it from the spec, with every
behaviour the test suite pins obeyed literally.
-/

/-- Modelled from the spec: the full server's stored User entity
(`src/src/entities` is absent; spec section 3). -/
structure User where
  id : Nat
  username : String
  name : String
  email : String
  password : String
deriving DecidableEq, Repr

/-- Modelled from the spec: the full server's stored Entry entity
(spec section 3); `timestampInUTC` is kept in its canonical ISO string form. -/
structure Entry where
  id : Nat
  timestampInUTC : String
  utcZoneOfTimestamp : String
  content : String
  userId : Nat
deriving DecidableEq, Repr

/-- Modelled from the spec: the persistence store of the full server, in
insertion order. -/
structure ServerState where
  users : List User
  entries : List Entry
deriving DecidableEq, Repr

/-- A JSON response body of the full server. -/
inductive Body
  | err (msg : String)
  | user (id : Nat) (username : String)
  | userList (l : List (Nat × String))
  | entryItem (e : Entry)
  | entryList (l : List Entry)
  | empty
deriving DecidableEq, Repr

/-- An HTTP response of the full server: status code and JSON body. -/
structure Resp where
  status : Nat
  body : Body
deriving DecidableEq, Repr

/-- Result of the Access-Control Gate's credential check. -/
inductive AuthResult
  | fail (r : Resp)
  | ok (u : User)
deriving DecidableEq, Repr

/-- Leading/trailing-whitespace removal (JS `String.prototype.trim`). -/
def trimStr (s : String) : String :=
  String.mk ((s.data.dropWhile Char.isWhitespace).reverse.dropWhile
    Char.isWhitespace).reverse

/-- Modelled from the spec: sequential id assignment by the absent persistence
layer ("assigned sequentially, starting at 1, by insertion order"): `1` on an
empty store, one more than the largest existing id otherwise. -/
def nextId (ids : List Nat) : Nat := ids.foldr max 0 + 1

/-- Modelled from the spec: the Credential Verifier (spec 4.2), absent from
`src/`: look up exactly one User by exact email match; fail if none, fail if
the password does not match the stored value byte-for-byte (no trimming). -/
def verifyCredentials (email password : String) (users : List User) : Option User :=
  match users.find? (fun u => u.email == email) with
  | none => none
  | some u => if u.password == password then some u else none

/-- The 401 failure for a request without a credentials header. -/
def authMissingResp : Resp :=
  ⟨401, .err "authentication required - via Basic authentication"⟩

/-- The 401 failure for a request whose credentials do not verify. -/
def authInvalidResp : Resp :=
  ⟨401, .err "authentication required - incorrect email and/or password"⟩

/-- Modelled from the spec: the Access-Control Gate's credential step (spec
4.5), absent from `src/`: a missing credentials header fails with status 401
and one message, present-but-invalid credentials fail with status 401 and a
distinct message. -/
def authenticate (creds : Option (String × String)) (users : List User) : AuthResult :=
  match creds with
  | none => .fail authMissingResp
  | some (e, p) =>
    match verifyCredentials e p users with
    | none => .fail authInvalidResp
    | some u => .ok u

/-- The full server's content-type failure response. -/
def contentTypeError : Resp :=
  ⟨400, .err "Your request did not include a 'Content-Type: application/json' header"⟩

/-- The full server's missing-field failure response. -/
def missingFieldError (field : String) : Resp :=
  ⟨400, .err ("Your request body did not specify a '" ++ field ++ "'")⟩

/-- The payload of a User create or update request; a field is `none` when the
JSON body does not supply it. -/
structure UserPayload where
  username : Option String
  name : Option String
  email : Option String
  password : Option String
deriving DecidableEq, Repr

/-- Modelled from the spec: `POST /api/users` of the full server (spec 4.3,
absent from `src/`, pinned by `src/__tests__/server.test.ts` lines 35-216):
content-type precondition, field presence in the order
username → name → email → password, trimming of username/name/email — the
password is stored verbatim, per the test at lines 184-215 — duplicate-username
then duplicate-email checks against the trimmed values, then sequential id
assignment and insertion. -/
def createUserFull (contentType : Option String) (p : UserPayload)
    (st : ServerState) : Resp × ServerState :=
  if contentType ≠ some "application/json" then (contentTypeError, st)
  else
    match p.username with
    | none => (missingFieldError "username", st)
    | some un =>
      match p.name with
      | none => (missingFieldError "name", st)
      | some nm =>
        match p.email with
        | none => (missingFieldError "email", st)
        | some em =>
          match p.password with
          | none => (missingFieldError "password", st)
          | some pw =>
            if st.users.any (fun u => u.username == trimStr un) then
              (⟨400,
                .err "There already exists a User resource with the username that you provided"⟩,
               st)
            else if st.users.any (fun u => u.email == trimStr em) then
              (⟨400,
                .err "There already exists a User resource with the email that you provided"⟩,
               st)
            else
              let newUser : User :=
                ⟨nextId (st.users.map (fun u => u.id)), trimStr un, trimStr nm,
                  trimStr em, pw⟩
              (⟨201, .user newUser.id newUser.username⟩,
                { st with users := st.users ++ [newUser] })

/-- Modelled from the spec: `GET /api/users` of the full server (spec 4.3,
absent from `src/`, pinned by the tests at lines 218-253): the public
projections `{id, username}` of all stored Users, in insertion order, wrapped
as `{ users: [...] }`. -/
def listUsersFull (st : ServerState) : Resp :=
  ⟨200, .userList (st.users.map (fun u => (u.id, u.username)))⟩

/-- Modelled from the spec: `GET /api/users/:id` of the full server (spec 4.3,
absent from `src/`). -/
def getUserFull (i : Nat) (st : ServerState) : Resp :=
  match st.users.find? (fun u => u.id == i) with
  | none => ⟨404, .err ("There doesn't exist a User resource with an ID of " ++ Nat.repr i)⟩
  | some u => ⟨200, .user u.id u.username⟩

/-- Modelled from the spec: merging an update payload into a stored User:
supplied username/name/email are trimmed; a supplied password is stored
verbatim, per the test at `src/__tests__/server.test.ts` lines 521-563. -/
def applyUserUpdate (p : UserPayload) (u : User) : User :=
  { u with
    username := (p.username.map trimStr).getD u.username
    name := (p.name.map trimStr).getD u.name
    email := (p.email.map trimStr).getD u.email
    password := p.password.getD u.password }

/-- Duplicate-username failure of `PUT /api/users/:id`, naming the value. -/
def dupUsernameResp (v : String) : Resp :=
  ⟨400, .err ("There already exists a User resource with a username of '" ++ v ++ "'")⟩

/-- Duplicate-email failure of `PUT /api/users/:id`, naming the value. -/
def dupEmailResp (v : String) : Resp :=
  ⟨400, .err ("There already exists a User resource with an email of '" ++ v ++ "'")⟩

/-- Commit step of the User update: merge and replace the stored row. -/
def updateUserCommit (u : User) (p : UserPayload) (st : ServerState) :
    Resp × ServerState :=
  let u2 := applyUserUpdate p u
  (⟨200, .user u2.id u2.username⟩,
    { st with users := st.users.map (fun v => if v.id == u.id then u2 else v) })

/-- Email-uniqueness step of the User update (checked against all other Users),
then commit. -/
def updateUserEmailStep (u : User) (p : UserPayload) (st : ServerState) :
    Resp × ServerState :=
  match p.email with
  | some em =>
    if st.users.any (fun v => v.id != u.id && v.email == trimStr em) then
      (dupEmailResp (trimStr em), st)
    else updateUserCommit u p st
  | none => updateUserCommit u p st

/-- Modelled from the spec: `PUT /api/users/:id` of the full server (spec 4.3
and 4.5, absent from `src/`, pinned by the tests at lines 296-565):
authentication, ownership (403 on a foreign id), content-type precondition,
per-field uniqueness against all other Users, then merge. -/
def updateUserFull (creds : Option (String × String)) (contentType : Option String)
    (i : Nat) (p : UserPayload) (st : ServerState) : Resp × ServerState :=
  match authenticate creds st.users with
  | .fail r => (r, st)
  | .ok u =>
    if u.id ≠ i then
      (⟨403, .err "You are not allowed to edit any User resource different from your own"⟩,
       st)
    else if contentType ≠ some "application/json" then (contentTypeError, st)
    else
      match p.username with
      | some un =>
        if st.users.any (fun v => v.id != u.id && v.username == trimStr un) then
          (dupUsernameResp (trimStr un), st)
        else updateUserEmailStep u p st
      | none => updateUserEmailStep u p st

/-- Modelled from the spec: `DELETE /api/users/:id` of the full server (spec
4.3 and 4.5, absent from `src/`, pinned by the tests at lines 567-672). -/
def deleteUserFull (creds : Option (String × String)) (i : Nat) (st : ServerState) :
    Resp × ServerState :=
  match authenticate creds st.users with
  | .fail r => (r, st)
  | .ok u =>
    if u.id ≠ i then
      (⟨403, .err "You are not allowed to delete any User resource different from your own"⟩,
       st)
    else
      (⟨204, .empty⟩, { st with users := st.users.filter (fun v => v.id != i) })

/-- The payload of an Entry create or update request. -/
structure EntryPayload where
  timezone : Option String
  localTime : Option String
  content : Option String
deriving DecidableEq, Repr

/-- Modelled from the spec: `POST /api/entries` of the full server (spec 4.4,
absent from `src/`, pinned by the tests at lines 674-802): authentication,
content-type precondition, field presence in the order
timezone → localTime → content, conversion via the Time Codec, then insertion
with the owner's id.  The failure message for a syntactically invalid
timezone/localTime pair is not pinned by the spec or tests. -/
def createEntryFull (creds : Option (String × String)) (contentType : Option String)
    (p : EntryPayload) (st : ServerState) : Resp × ServerState :=
  match authenticate creds st.users with
  | .fail r => (r, st)
  | .ok u =>
    if contentType ≠ some "application/json" then (contentTypeError, st)
    else
      match p.timezone with
      | none => (missingFieldError "timezone", st)
      | some tz =>
        match p.localTime with
        | none => (missingFieldError "localTime", st)
        | some lt =>
          match p.content with
          | none => (missingFieldError "content", st)
          | some c =>
            match toUTC lt tz with
            | none =>
              (⟨400, .err "The combination of timezone and localTime is not valid"⟩, st)
            | some inst =>
              let e : Entry :=
                ⟨nextId (st.entries.map (fun x => x.id)), formatISO inst, tz, c, u.id⟩
              (⟨201, .entryItem e⟩, { st with entries := st.entries ++ [e] })

/-- Modelled from the spec: `GET /api/entries` of the full server (spec 4.4,
absent from `src/`, pinned by the tests at lines 804-883): all Entries of the
authenticated owner, in creation order, wrapped as `{ entries: [...] }`. -/
def listEntriesFull (creds : Option (String × String)) (st : ServerState) :
    Resp × ServerState :=
  match authenticate creds st.users with
  | .fail r => (r, st)
  | .ok u => (⟨200, .entryList (st.entries.filter (fun e => e.userId == u.id))⟩, st)

/-- The deliberately ambiguous not-found-or-not-owned Entry failure. -/
def entryNotFound (i : Nat) : Resp :=
  ⟨404, .err ("Your User doesn't have an Entry resource with an ID of " ++ Nat.repr i)⟩

/-- Look up an Entry by id restricted to the owner's Entries — the single query
behind the ambiguous `NotFound` of get/update/delete. -/
def findOwnedEntry (i uid : Nat) (es : List Entry) : Option Entry :=
  es.find? (fun e => e.id == i && e.userId == uid)

/-- Modelled from the spec: `GET /api/entries/:id` of the full server (spec
4.4, absent from `src/`, pinned by the tests at lines 885-1010). -/
def getEntryFull (creds : Option (String × String)) (i : Nat) (st : ServerState) :
    Resp × ServerState :=
  match authenticate creds st.users with
  | .fail r => (r, st)
  | .ok u =>
    match findOwnedEntry i u.id st.entries with
    | none => (entryNotFound i, st)
    | some e => (⟨200, .entryItem e⟩, st)

/-- Commit step of the Entry update: replace the stored row. -/
def updateEntryCommit (st : ServerState) (e2 : Entry) : Resp × ServerState :=
  (⟨200, .entryItem e2⟩,
    { st with entries := st.entries.map (fun x => if x.id == e2.id then e2 else x) })

/-- Modelled from the spec: `PUT /api/entries/:id` of the full server (spec 4.4
and 4.5, absent from `src/`): authentication, then the ownership lookup
identical to `get` (the gate's state machine puts the ownership check before
payload validation), then content-type, then the both-or-neither rule for
timezone/localTime with an empty timezone a `MissingField` failure. -/
def updateEntryFull (creds : Option (String × String)) (contentType : Option String)
    (i : Nat) (p : EntryPayload) (st : ServerState) : Resp × ServerState :=
  match authenticate creds st.users with
  | .fail r => (r, st)
  | .ok u =>
    match findOwnedEntry i u.id st.entries with
    | none => (entryNotFound i, st)
    | some e =>
      if contentType ≠ some "application/json" then (contentTypeError, st)
      else
        match p.timezone, p.localTime with
        | none, none =>
          updateEntryCommit st { e with content := p.content.getD e.content }
        | some tz, some lt =>
          if tz = "" then (missingFieldError "timezone", st)
          else
            match toUTC lt tz with
            | none =>
              (⟨400, .err "The combination of timezone and localTime is not valid"⟩, st)
            | some inst =>
              updateEntryCommit st
                { e with
                  timestampInUTC := formatISO inst
                  utcZoneOfTimestamp := tz
                  content := p.content.getD e.content }
        | some _, none => (missingFieldError "localTime", st)
        | none, some _ => (missingFieldError "timezone", st)

/-- Modelled from the spec: `DELETE /api/entries/:id` of the full server (spec
4.4 and 4.5, absent from `src/`): authentication, the ownership lookup
identical to `get`, then removal. -/
def deleteEntryFull (creds : Option (String × String)) (i : Nat) (st : ServerState) :
    Resp × ServerState :=
  match authenticate creds st.users with
  | .fail r => (r, st)
  | .ok u =>
    match findOwnedEntry i u.id st.entries with
    | none => (entryNotFound i, st)
    | some _ => (⟨204, .empty⟩, { st with entries := st.entries.filter (fun x => x.id != i) })

/-! ## Concrete fixtures (the test suite's seed data) -/

/-- The registered user `jd` from the test suite. -/
def jdUser : User := ⟨1, "jd", "John Doe", "john.doe@protonmail.com", "123"⟩

/-- The registered user `ms` from the test suite. -/
def msUser : User := ⟨2, "ms", "Mary Smith", "mary.smith@protonmail.com", "456"⟩

/-- The Entry created by `jd` in the test suite. -/
def jdEntry : Entry :=
  ⟨1, "2021-01-01T00:00:17.000Z", "+02:00", "Happy New Year to everybody in the UK!", 1⟩

/-- The Entry created by `ms` in the test suite. -/
def msEntry : Entry :=
  ⟨2, "2021-01-01T00:00:17.000Z", "-05:00", "Happy New Year to everybody in the UK!", 2⟩

/-- A state with one registered user and no entries. -/
def oneUserState : ServerState := ⟨[jdUser], []⟩

/-- The two-user, two-entry state built by the `GET /api/entries/:id` tests. -/
def twoUserState : ServerState := ⟨[jdUser, msUser], [jdEntry, msEntry]⟩

/-- Valid Basic-Auth credentials for `jd`. -/
def jdCreds : Option (String × String) := some ("john.doe@protonmail.com", "123")

/-! ## Claim theorems -/

theorem findOwnedEntry_eq_none {i uid : Nat} {es : List Entry}
    (h : ∀ e ∈ es, e.id = i → e.userId ≠ uid) : findOwnedEntry i uid es = none := by
  unfold findOwnedEntry
  apply List.find?_eq_none.mpr
  intro e he
  simp only [Bool.and_eq_true, beq_iff_eq, not_and]
  exact fun h1 h2 => h e he h1 h2

/-- C1: for every authenticated user and entry id, `get`, `update` and `delete`
on `/api/entries/:id` all return the very same `NotFound` failure — status 404
with body message `Your User doesn't have an Entry resource with an ID of {i}` —
whenever no Entry with that id belongs to the user, which covers both the case
where no Entry with id `i` exists at all and the case where such an Entry exists
but is owned by a different user; the two cases are indistinguishable because
the response is literally the same term. -/
theorem entryOps_notFound_indistinguishable (st : ServerState)
    (creds : Option (String × String)) (u : User) (i : Nat)
    (contentType : Option String) (p : EntryPayload)
    (hauth : authenticate creds st.users = .ok u)
    (hmiss : ∀ e ∈ st.entries, e.id = i → e.userId ≠ u.id) :
    getEntryFull creds i st = (entryNotFound i, st) ∧
    updateEntryFull creds contentType i p st = (entryNotFound i, st) ∧
    deleteEntryFull creds i st = (entryNotFound i, st) ∧
    entryNotFound i = ⟨404,
      .err ("Your User doesn't have an Entry resource with an ID of " ++ Nat.repr i)⟩ := by
  have hfind := findOwnedEntry_eq_none hmiss
  refine ⟨?_, ?_, ?_, rfl⟩ <;>
    simp only [getEntryFull, updateEntryFull, deleteEntryFull, hauth, hfind]

/-- Witness for C1: user `jd` probing `ms`'s entry (id 2) — an existing entry
with a different owner — receives the canonical 404 from all three operations;
id 17 (no entry at all) is covered by the same theorem. -/
theorem entryOps_notFound_indistinguishable_witness :
    getEntryFull jdCreds 2 twoUserState = (entryNotFound 2, twoUserState) ∧
    updateEntryFull jdCreds (some "application/json") 2 ⟨none, none, none⟩ twoUserState =
      (entryNotFound 2, twoUserState) ∧
    deleteEntryFull jdCreds 2 twoUserState = (entryNotFound 2, twoUserState) ∧
    entryNotFound 2 = ⟨404,
      .err ("Your User doesn't have an Entry resource with an ID of " ++ Nat.repr 2)⟩ :=
  entryOps_notFound_indistinguishable twoUserState jdCreds jdUser 2
    (some "application/json") ⟨none, none, none⟩ (by decide) (by decide)

/-- C5: every endpoint requiring Basic-Auth credentials — all five Entry
operations and User update/delete — fails with status 401 and the message
`authentication required - via Basic authentication` when no credentials header
is present, and with status 401 and the distinct message
`authentication required - incorrect email and/or password` when a credentials
header is present but its email/password pair does not verify; both failures
carry the same status 401 and differ only in the message. -/
theorem basicAuth_required_distinct_messages (st : ServerState) (i : Nat)
    (ct : Option String) (pu : UserPayload) (pe : EntryPayload) (e p : String)
    (hbad : verifyCredentials e p st.users = none) :
    (createEntryFull none ct pe st = (authMissingResp, st) ∧
     listEntriesFull none st = (authMissingResp, st) ∧
     getEntryFull none i st = (authMissingResp, st) ∧
     updateEntryFull none ct i pe st = (authMissingResp, st) ∧
     deleteEntryFull none i st = (authMissingResp, st) ∧
     updateUserFull none ct i pu st = (authMissingResp, st) ∧
     deleteUserFull none i st = (authMissingResp, st)) ∧
    (createEntryFull (some (e, p)) ct pe st = (authInvalidResp, st) ∧
     listEntriesFull (some (e, p)) st = (authInvalidResp, st) ∧
     getEntryFull (some (e, p)) i st = (authInvalidResp, st) ∧
     updateEntryFull (some (e, p)) ct i pe st = (authInvalidResp, st) ∧
     deleteEntryFull (some (e, p)) i st = (authInvalidResp, st) ∧
     updateUserFull (some (e, p)) ct i pu st = (authInvalidResp, st) ∧
     deleteUserFull (some (e, p)) i st = (authInvalidResp, st)) ∧
    authMissingResp.status = 401 ∧ authInvalidResp.status = 401 ∧
    authMissingResp.body ≠ authInvalidResp.body := by
  have h1 : authenticate none st.users = .fail authMissingResp := rfl
  have h2 : authenticate (some (e, p)) st.users = .fail authInvalidResp := by
    unfold authenticate
    dsimp only
    rw [hbad]
  refine ⟨⟨?_, ?_, ?_, ?_, ?_, ?_, ?_⟩, ⟨?_, ?_, ?_, ?_, ?_, ?_, ?_⟩, rfl, rfl, by decide⟩ <;>
    simp only [createEntryFull, listEntriesFull, getEntryFull, updateEntryFull,
      deleteEntryFull, updateUserFull, deleteUserFull, h1, h2]

/-- Witness for C5: against the seeded two-user store, the absent-header and
wrong-password failures of `GET /api/entries/1`. -/
theorem basicAuth_required_distinct_messages_witness :
    getEntryFull none 1 twoUserState = (authMissingResp, twoUserState) ∧
    getEntryFull (some ("john.doe@protonmail.com", "wrong-password")) 1 twoUserState =
      (authInvalidResp, twoUserState) ∧
    authMissingResp.status = 401 ∧ authInvalidResp.status = 401 := by
  have h := basicAuth_required_distinct_messages twoUserState 1
    (some "application/json") ⟨none, none, none, none⟩ ⟨none, none, none⟩
    "john.doe@protonmail.com" "wrong-password" (by decide)
  exact ⟨h.1.2.2.1, h.2.1.2.2.1, h.2.2.1, h.2.2.2.1⟩

/-- C7: `GET /api/users` returns status 200 and a `{ users: [...] }` body whose
elements are exactly the `{id, username}` public projections of the stored
Users, in insertion order (position `k` of the body is the projection of stored
User `k`); no other User field appears in a `userList` body. -/
theorem listUsers_public_projection (st : ServerState) :
    listUsersFull st = ⟨200, Body.userList (st.users.map (fun u => (u.id, u.username)))⟩ ∧
    (st.users.map (fun u => (u.id, u.username))).length = st.users.length ∧
    ∀ k (hk : k < st.users.length),
      (st.users.map (fun u => (u.id, u.username))).get ⟨k, by simpa using hk⟩ =
        ((st.users.get ⟨k, hk⟩).id, (st.users.get ⟨k, hk⟩).username) := by
  refine ⟨rfl, by simp, ?_⟩
  intro k hk
  simp

/-- Witness for C7: on the seeded two-user store the body lists exactly
`(1, jd)` then `(2, ms)`. -/
theorem listUsers_public_projection_witness :
    listUsersFull twoUserState = ⟨200, Body.userList [(1, "jd"), (2, "ms")]⟩ :=
  (listUsers_public_projection twoUserState).1.trans (by decide)

/-- C10: the create-user content-type precondition is an exact string-equality
check: any header other than the exact string `application/json` — including
`application/json; charset=utf-8` and an absent header — fails with status 400
and the message `Your request did not include a 'Content-Type:
application/json' header`, leaving the user store unchanged; this holds for the
handler embedded from `src/src/server.ts` (lines 57-64) and for the full-server
model alike. -/
theorem contentType_exact_equality (h : Option String)
    (hne : h ≠ some "application/json") (users : List IUser) (stf : ServerState)
    (p : SrcUserPayload) (q : UserPayload) :
    postUsersSrc h p users = some
      (⟨400, .err "Your request did not include a 'Content-Type: application/json' header"⟩,
       users) ∧
    createUserFull h q stf = (contentTypeError, stf) := by
  constructor
  · unfold postUsersSrc
    rw [if_pos hne]
  · unfold createUserFull
    rw [if_pos hne]

/-- Witness for C10: the common variant `application/json; charset=utf-8` and
the absent header are both rejected, with the store returned unchanged. -/
theorem contentType_exact_equality_witness :
    postUsersSrc (some "application/json; charset=utf-8")
      ⟨some "jd", some "John Doe", some "john.doe@protonmail.com", some "123"⟩ [] = some
      (⟨400, .err "Your request did not include a 'Content-Type: application/json' header"⟩,
       []) ∧
    createUserFull none
      ⟨some "jd", some "John Doe", some "john.doe@protonmail.com", some "123"⟩ ⟨[], []⟩ =
      (contentTypeError, ⟨[], []⟩) :=
  ⟨(contentType_exact_equality (some "application/json; charset=utf-8") (by decide) []
      ⟨[], []⟩ ⟨some "jd", some "John Doe", some "john.doe@protonmail.com", some "123"⟩
      ⟨some "jd", some "John Doe", some "john.doe@protonmail.com", some "123"⟩).1,
   (contentType_exact_equality none (by decide) []
      ⟨[], []⟩ ⟨some "jd", some "John Doe", some "john.doe@protonmail.com", some "123"⟩
      ⟨some "jd", some "John Doe", some "john.doe@protonmail.com", some "123"⟩).2⟩

/-- C3: a successful authenticated entry creation with timezone `Z` and local
time `L` stores and returns `timestampInUTC` equal to the instant `L` minus the
signed minute value of `Z` (`UTC = local - offset`, the value `toUTC L Z`,
rendered in canonical ISO form), and returns `utcZoneOfTimestamp` equal to `Z`
unchanged; the created Entry is appended to the store with the owner's id. -/
theorem createEntry_utc_equals_local_minus_offset (st : ServerState)
    (creds : Option (String × String)) (u : User) (tz lt c : String) (inst : Int)
    (hauth : authenticate creds st.users = .ok u)
    (hutc : toUTC lt tz = some inst) :
    (∃ f off, parseLocalChars lt.data = some f ∧ parseOffsetChars tz.data = some off ∧
      inst = (localSecs f : Int) - 60 * off) ∧
    createEntryFull creds (some "application/json") ⟨some tz, some lt, some c⟩ st =
      (⟨201, .entryItem
        ⟨nextId (st.entries.map (fun x => x.id)), formatISO inst, tz, c, u.id⟩⟩,
       { st with entries := st.entries ++
         [⟨nextId (st.entries.map (fun x => x.id)), formatISO inst, tz, c, u.id⟩] }) := by
  constructor
  · unfold toUTC at hutc
    cases hpf : parseLocalChars lt.data with
    | none => rw [hpf] at hutc; simp at hutc
    | some f =>
      cases hpo : parseOffsetChars tz.data with
      | none => rw [hpf, hpo] at hutc; simp at hutc
      | some off =>
        rw [hpf, hpo] at hutc
        exact ⟨f, off, rfl, rfl, (Option.some.inj hutc).symm⟩
  · simp only [createEntryFull, hauth]
    rw [if_neg (by simp)]
    rw [hutc]

/-- Witness for C3: the test scenario — `jd` posts
`{timezone: "+02:00", localTime: "2021-01-01 02:00:17", content: ...}` and the
created Entry carries `timestampInUTC = "2021-01-01T00:00:17.000Z"` and
`utcZoneOfTimestamp = "+02:00"`. -/
theorem createEntry_utc_equals_local_minus_offset_witness :
    createEntryFull jdCreds (some "application/json")
      ⟨some "+02:00", some "2021-01-01 02:00:17",
        some "Happy New Year to everybody in the UK!"⟩ oneUserState =
      (⟨201, .entryItem jdEntry⟩, ⟨[jdUser], [jdEntry]⟩) := by
  have h := createEntry_utc_equals_local_minus_offset oneUserState jdCreds jdUser
    "+02:00" "2021-01-01 02:00:17" "Happy New Year to everybody in the UK!"
    63776678417 (by decide) (by decide)
  exact h.2.trans (by decide)

/-- C9: a user-creation payload missing one or more of the fields username,
name, email, password fails with status 400 and the message
`Your request body did not specify a '<field>'` naming the first absent field
in the fixed order username → name → email → password, and the user store is
returned unchanged (no User is created); this holds for the handler embedded
from `src/src/server.ts` (lines 66-75) and for the full-server model alike. -/
theorem missing_field_first_in_declaration_order (users : List IUser)
    (stf : ServerState) (p : SrcUserPayload) (q : UserPayload) :
    ((p.username = none → postUsersSrc (some "application/json") p users =
       some (⟨400, .err "Your request body did not specify a 'username'"⟩, users)) ∧
     (∀ un, p.username = some un → p.name = none →
       postUsersSrc (some "application/json") p users =
       some (⟨400, .err "Your request body did not specify a 'name'"⟩, users)) ∧
     (∀ un nm, p.username = some un → p.name = some nm → p.email = none →
       postUsersSrc (some "application/json") p users =
       some (⟨400, .err "Your request body did not specify a 'email'"⟩, users)) ∧
     (∀ un nm em, p.username = some un → p.name = some nm → p.email = some em →
       p.password = none → postUsersSrc (some "application/json") p users =
       some (⟨400, .err "Your request body did not specify a 'password'"⟩, users))) ∧
    ((q.username = none → createUserFull (some "application/json") q stf =
       (missingFieldError "username", stf)) ∧
     (∀ un, q.username = some un → q.name = none →
       createUserFull (some "application/json") q stf = (missingFieldError "name", stf)) ∧
     (∀ un nm, q.username = some un → q.name = some nm → q.email = none →
       createUserFull (some "application/json") q stf = (missingFieldError "email", stf)) ∧
     (∀ un nm em, q.username = some un → q.name = some nm → q.email = some em →
       q.password = none → createUserFull (some "application/json") q stf =
       (missingFieldError "password", stf))) := by
  refine ⟨⟨?_, ?_, ?_, ?_⟩, ⟨?_, ?_, ?_, ?_⟩⟩
  · intro h1
    simp [postUsersSrc, h1]
  · intro un h1 h2
    simp [postUsersSrc, h1, h2]
  · intro un nm h1 h2 h3
    simp [postUsersSrc, h1, h2, h3]
  · intro un nm em h1 h2 h3 h4
    simp [postUsersSrc, h1, h2, h3, h4]
  · intro h1
    simp [createUserFull, h1]
  · intro un h1 h2
    simp [createUserFull, h1, h2]
  · intro un nm h1 h2 h3
    simp [createUserFull, h1, h2, h3]
  · intro un nm em h1 h2 h3 h4
    simp [createUserFull, h1, h2, h3, h4]

/-- Witness for C9: a payload with only the username absent is refused with the
message naming `username`, by the embedded source handler and the full-server
model, leaving both stores unchanged. -/
theorem missing_field_first_in_declaration_order_witness :
    postUsersSrc (some "application/json")
      ⟨none, some "John Doe", some "john.doe@protonmail.com", some "123"⟩ [] =
      some (⟨400, .err "Your request body did not specify a 'username'"⟩, []) ∧
    createUserFull (some "application/json")
      ⟨none, some "John Doe", some "john.doe@protonmail.com", some "123"⟩ ⟨[], []⟩ =
      (missingFieldError "username", ⟨[], []⟩) := by
  have h := missing_field_first_in_declaration_order [] ⟨[], []⟩
    ⟨none, some "John Doe", some "john.doe@protonmail.com", some "123"⟩
    ⟨none, some "John Doe", some "john.doe@protonmail.com", some "123"⟩
  exact ⟨h.1.1 rfl, h.2.1 rfl⟩

/-- Anatomy of a successful `POST /api/users` on the full-server model: all
four fields were present, neither trimmed unique field collided, the response
carries the next sequential id and trimmed username, and the new row — trimmed
username/name/email, verbatim password — is appended to the store. -/
theorem createUserFull_success (p : UserPayload) (st : ServerState) (r : Resp)
    (st' : ServerState)
    (hc : createUserFull (some "application/json") p st = (r, st'))
    (hok : r.status = 201) :
    ∃ un nm em pw, p.username = some un ∧ p.name = some nm ∧ p.email = some em ∧
      p.password = some pw ∧
      st.users.any (fun u => u.username == trimStr un) = false ∧
      st.users.any (fun u => u.email == trimStr em) = false ∧
      r = ⟨201, .user (nextId (st.users.map (fun v => v.id))) (trimStr un)⟩ ∧
      st' = { st with users := st.users ++
        [⟨nextId (st.users.map (fun v => v.id)), trimStr un, trimStr nm, trimStr em, pw⟩] } := by
  unfold createUserFull at hc
  rw [if_neg (by simp)] at hc
  cases hun : p.username with
  | none =>
    simp only [hun] at hc
    rw [Prod.mk.injEq] at hc
    obtain ⟨hr, _⟩ := hc
    rw [← hr] at hok
    simp [missingFieldError] at hok
  | some un =>
    simp only [hun] at hc
    cases hnm : p.name with
    | none =>
      simp only [hnm] at hc
      rw [Prod.mk.injEq] at hc
      obtain ⟨hr, _⟩ := hc
      rw [← hr] at hok
      simp [missingFieldError] at hok
    | some nm =>
      simp only [hnm] at hc
      cases hem : p.email with
      | none =>
        simp only [hem] at hc
        rw [Prod.mk.injEq] at hc
        obtain ⟨hr, _⟩ := hc
        rw [← hr] at hok
        simp [missingFieldError] at hok
      | some em =>
        simp only [hem] at hc
        cases hpw : p.password with
        | none =>
          simp only [hpw] at hc
          rw [Prod.mk.injEq] at hc
          obtain ⟨hr, _⟩ := hc
          rw [← hr] at hok
          simp [missingFieldError] at hok
        | some pw =>
          simp only [hpw] at hc
          cases hdU : st.users.any (fun u => u.username == trimStr un) with
          | true =>
            simp only [hdU, if_true] at hc
            rw [Prod.mk.injEq] at hc
            obtain ⟨hr, _⟩ := hc
            rw [← hr] at hok
            simp at hok
          | false =>
            simp only [hdU, Bool.false_eq_true, if_false] at hc
            cases hdE : st.users.any (fun u => u.email == trimStr em) with
            | true =>
              simp only [hdE, if_true] at hc
              rw [Prod.mk.injEq] at hc
              obtain ⟨hr, _⟩ := hc
              rw [← hr] at hok
              simp at hok
            | false =>
              simp only [hdE, Bool.false_eq_true, if_false] at hc
              rw [Prod.mk.injEq] at hc
              obtain ⟨hr, hst⟩ := hc
              exact ⟨un, nm, em, pw, rfl, rfl, rfl, rfl, hdU, hdE, hr.symm, hst.symm⟩

/-- C4: after a successful create of a payload with username `u1`, a second
create whose trimmed username equals the first's — whatever its other fields —
fails with status 400 and the message `There already exists a User resource
with the username that you provided`, and returns the user store unchanged. -/
theorem duplicate_username_second_create_rejected (st st1 : ServerState)
    (p1 p2 : UserPayload) (r1 : Resp) (u1v u2v : String)
    (h1 : p1.username = some u1v) (h2 : p2.username = some u2v)
    (heq : trimStr u1v = trimStr u2v)
    (hn : p2.name.isSome = true) (he : p2.email.isSome = true)
    (hp : p2.password.isSome = true)
    (hc : createUserFull (some "application/json") p1 st = (r1, st1))
    (hok : r1.status = 201) :
    createUserFull (some "application/json") p2 st1 =
      (⟨400, .err "There already exists a User resource with the username that you provided"⟩,
       st1) := by
  obtain ⟨un, nm, em, pw, hun, hnm, hem, hpw, hdU, hdE, hr, hst⟩ :=
    createUserFull_success p1 st r1 st1 hc hok
  rw [h1] at hun
  have huv : u1v = un := Option.some.inj hun
  subst huv
  obtain ⟨nm2, hnm2⟩ := Option.isSome_iff_exists.mp hn
  obtain ⟨em2, hem2⟩ := Option.isSome_iff_exists.mp he
  obtain ⟨pw2, hpw2⟩ := Option.isSome_iff_exists.mp hp
  subst hst
  unfold createUserFull
  rw [if_neg (by simp)]
  simp only [h2, hnm2, hem2, hpw2]
  have hdup : ((st.users ++
      [(⟨nextId (st.users.map (fun v => v.id)), trimStr u1v, trimStr nm, trimStr em,
        pw⟩ : User)]).any
      (fun u => u.username == trimStr u2v)) = true := by
    rw [List.any_append]
    have h5 : (([(⟨nextId (st.users.map (fun v => v.id)), trimStr u1v, trimStr nm,
        trimStr em, pw⟩ : User)]).any (fun u => u.username == trimStr u2v)) = true := by
      simp only [List.any_cons, List.any_nil, Bool.or_false]
      rw [heq]
      simp
    rw [h5, Bool.or_true]
  rw [hdup, if_pos rfl]

/-- Witness for C4: the test scenario — `jd` registered, then a second payload
with the same username but different name/email/password is refused and the
store still holds only the first user. -/
theorem duplicate_username_second_create_rejected_witness :
    createUserFull (some "application/json")
      ⟨some "jd", some "different-name", some "different-email", some "different-password"⟩
      ⟨[jdUser], []⟩ =
      (⟨400, .err "There already exists a User resource with the username that you provided"⟩,
       ⟨[jdUser], []⟩) :=
  duplicate_username_second_create_rejected ⟨[], []⟩ ⟨[jdUser], []⟩
    ⟨some "jd", some "John Doe", some "john.doe@protonmail.com", some "123"⟩
    ⟨some "jd", some "different-name", some "different-email", some "different-password"⟩
    ⟨201, .user 1 "jd"⟩ "jd" "jd" rfl rfl rfl rfl rfl rfl (by decide) rfl

theorem le_foldr_max (l : List Nat) (x : Nat) (hx : x ∈ l) : x ≤ l.foldr max 0 := by
  induction l with
  | nil => simp at hx
  | cons a l ih =>
    rcases List.mem_cons.mp hx with h | h
    · subst h
      simp only [List.foldr_cons]
      omega
    · have := ih h
      simp only [List.foldr_cons]
      omega

theorem foldr_max_le (l : List Nat) (n : Nat) (hub : ∀ x ∈ l, x ≤ n) :
    l.foldr max 0 ≤ n := by
  induction l with
  | nil => simp
  | cons a l ih =>
    have h1 := hub a (by simp)
    have h2 := ih (fun x hx => hub x (by simp [hx]))
    simp only [List.foldr_cons]
    omega

/-- C8: a successful user create appends a single row whose id is the model's
`nextId`; on an empty store that id is 1, and whenever `n` is the largest
existing id (an upper bound attained by some stored User) the new id is
`n + 1`. -/
theorem user_ids_sequential_from_one (st : ServerState) (p : UserPayload)
    (r : Resp) (st' : ServerState)
    (hc : createUserFull (some "application/json") p st = (r, st'))
    (hok : r.status = 201) :
    ∃ u : User, st'.users = st.users ++ [u] ∧
      u.id = nextId (st.users.map (fun v => v.id)) ∧
      (st.users = [] → u.id = 1) ∧
      (∀ n, (∀ v ∈ st.users, v.id ≤ n) → (∃ v ∈ st.users, v.id = n) → u.id = n + 1) := by
  obtain ⟨un, nm, em, pw, _, _, _, _, _, _, _, hst⟩ :=
    createUserFull_success p st r st' hc hok
  subst hst
  refine ⟨_, rfl, rfl, ?_, ?_⟩
  · intro hemp
    show nextId (st.users.map (fun v => v.id)) = 1
    rw [hemp]
    rfl
  · intro n hub hmem
    show nextId (st.users.map (fun v => v.id)) = n + 1
    have hmax : (st.users.map (fun v => v.id)).foldr max 0 = n := by
      apply le_antisymm
      · apply foldr_max_le
        intro x hx
        obtain ⟨v, hv, hvx⟩ := List.mem_map.mp hx
        exact hvx ▸ hub v hv
      · obtain ⟨v, hv, hvn⟩ := hmem
        exact hvn ▸ le_foldr_max _ v.id (List.mem_map.mpr ⟨v, hv, rfl⟩)
    unfold nextId
    rw [hmax]

/-- Witness for C8: creating `ms` against a store holding only `jd` (largest id
1) appends a single user with id 2; the empty-store case giving id 1 is the
same theorem at the empty state. -/
theorem user_ids_sequential_from_one_witness :
    ∃ u : User, (createUserFull (some "application/json")
      ⟨some "ms", some "Mary Smith", some "mary.smith@protonmail.com", some "456"⟩
      oneUserState).2.users = oneUserState.users ++ [u] ∧ u.id = 2 := by
  obtain ⟨u, ha, hb, _, _⟩ := user_ids_sequential_from_one oneUserState
    ⟨some "ms", some "Mary Smith", some "mary.smith@protonmail.com", some "456"⟩
    _ _ rfl (by decide)
  exact ⟨u, ha, hb.trans (by decide)⟩

/-- Witness for C2: the test scenario's local time and offset round-trip to the
minute-truncated local time. -/
theorem timeCodec_roundTrip_witness :
    toUTC "2021-01-01 02:00:17" "+02:00" = some 63776678417 ∧
    toLocal 63776678417 "+02:00" = some "2021-01-01 02:00" := by
  refine ⟨by decide, ?_⟩
  have h := timeCodec_roundTrip "2021-01-01 02:00:17" "+02:00" 63776678417 (by decide)
  exact h.1.trans (by decide)

/-- C6 counterexample: the claim says a JSON-body password is stored trimmed;
the repository's own test (`src/__tests__/server.test.ts` lines 184-215) pins
the opposite, so in the model a create with password `" 123 "` stores
`" 123 "` verbatim, which differs from the trimmed value `"123"`. -/
theorem password_trimming_claim_counterexample :
    ((createUserFull (some "application/json")
      ⟨some "jd", some "John Doe", some "john.doe@protonmail.com", some " 123 "⟩
      ⟨[], []⟩).2.users.map (fun u => u.password)) = [" 123 "] ∧
    trimStr " 123 " = "123" ∧ (" 123 " : String) ≠ "123" := by decide

/-- C6 (amended): a user create whose JSON body supplies a password stores that
password verbatim (no trimming) — and so does the update merge — while
credential verification also compares the Basic-Auth password against the
stored value without any trimming. -/
theorem password_stored_verbatim_untrimmed_compare (st : ServerState)
    (p : UserPayload) (pw : String) (r : Resp) (st' : ServerState)
    (hpw : p.password = some pw)
    (hc : createUserFull (some "application/json") p st = (r, st'))
    (hok : r.status = 201) :
    (∃ u : User, st'.users = st.users ++ [u] ∧ u.password = pw) ∧
    (∀ (q : UserPayload) (u2 : User), q.password = some pw →
      (applyUserUpdate q u2).password = pw) ∧
    (∀ (e : String) (users : List User) (u3 : User),
      verifyCredentials e pw users = some u3 → u3.password = pw) := by
  obtain ⟨un, nm, em, pw2, hun, hnm, hem, hpw2, _, _, _, hst⟩ :=
    createUserFull_success p st r st' hc hok
  rw [hpw] at hpw2
  have hp2 : pw = pw2 := Option.some.inj hpw2
  subst hp2
  refine ⟨⟨_, by rw [hst], rfl⟩, ?_, ?_⟩
  · intro q u2 hq
    simp [applyUserUpdate, hq]
  · intro e users u3 hv
    unfold verifyCredentials at hv
    cases hf : users.find? (fun u => u.email == e) with
    | none => rw [hf] at hv; exact absurd hv (by simp)
    | some v =>
      rw [hf] at hv
      dsimp only at hv
      split at hv
      · rename_i hcond
        have hvu : v = u3 := Option.some.inj hv
        subst hvu
        exact eq_of_beq hcond
      · exact absurd hv (by simp)

/-- Witness for C6 (amended): registering with password `" 123 "` appends a
user whose stored password is exactly `" 123 "`. -/
theorem password_stored_verbatim_untrimmed_compare_witness :
    ∃ u : User, (createUserFull (some "application/json")
      ⟨some "jd", some "John Doe", some "john.doe@protonmail.com", some " 123 "⟩
      (⟨[], []⟩ : ServerState)).2.users = (⟨[], []⟩ : ServerState).users ++ [u] ∧
      u.password = " 123 " :=
  (password_stored_verbatim_untrimmed_compare ⟨[], []⟩
    ⟨some "jd", some "John Doe", some "john.doe@protonmail.com", some " 123 "⟩
    " 123 " _ _ rfl rfl (by decide)).1

end MyJournal
